import Mathlib

/-!
Verification development for the Merr_Christmas interactive tree scene.

The definitions below are a shallow embedding of the repository's
state-to-visual transition engine: the hand-signal classifier
(HandController.processFrame), the per-frame progress integrator and
camera rig (App.tsx / GrandTree useFrame), the particle and card
geometry generation, the floating-item animator, the foliage shader's
point-size computation, and the greeting-service fallback logic.
Machine floats are modelled as exact rationals (or reals where the code
uses trigonometric functions); JavaScript's truthiness on strings is
modelled by an explicit emptiness test.
-/

/-! ## Signal source: HandController.processFrame -/

/-- One pixel of the downscaled 100x75 webcam canvas, with its canvas
coordinates and RGB channels (the alpha channel is ignored). -/
structure Pixel where
  x : ℕ
  y : ℕ
  r : ℕ
  g : ℕ
  b : ℕ

/-- Skin threshold of processFrame:
R > 95, G > 40, B > 20, R > G, R > B, max-min > 15, |R-G| > 15. -/
def isSkin (p : Pixel) : Bool :=
  decide (95 < p.r) && decide (40 < p.g) && decide (20 < p.b) &&
  decide (p.g < p.r) && decide (p.b < p.r) &&
  decide (15 < max p.r (max p.g p.b) - min p.r (min p.g p.b)) &&
  decide (15 < max p.r p.g - min p.r p.g)

/-- The skin-classified pixels of a frame. -/
def skinPixels (frame : List Pixel) : List Pixel :=
  frame.filter isSkin

/-- Bounding-box minimum x, initialised to canvas.width = 100. -/
def boxMinX (l : List Pixel) : ℕ := l.foldl (fun a p => min a p.x) 100

/-- Bounding-box maximum x, initialised to 0. -/
def boxMaxX (l : List Pixel) : ℕ := l.foldl (fun a p => max a p.x) 0

/-- Bounding-box minimum y, initialised to canvas.height = 75. -/
def boxMinY (l : List Pixel) : ℕ := l.foldl (fun a p => min a p.y) 75

/-- Bounding-box maximum y, initialised to 0. -/
def boxMaxY (l : List Pixel) : ℕ := l.foldl (fun a p => max a p.y) 0

/-- The boolean processFrame passes to onUnleashChange: when more than
200 skin pixels are present, unleash iff the skin bounding box covers
more than 15 percent of the canvas; otherwise (no hand detected)
deliver false. -/
def processFrame (frame : List Pixel) : Bool :=
  let sp := skinPixels frame
  if 200 < sp.length then
    let w := boxMaxX sp - boxMinX sp
    let h := boxMaxY sp - boxMinY sp
    decide ((15 : ℚ) / 100 < (w * h : ℚ) / (100 * 75))
  else
    false

/-- App.tsx line 133: the tree receives isFormed = !unleashed. -/
def isFormedOf (unleashed : Bool) : Bool := !unleashed

/-- GrandTree useFrame: the integrator target is 1 when formed, else 0. -/
def targetProgress (formed : Bool) : ℚ := if formed then 1 else 0

/-! ## Progress integrator: GrandTree useFrame -/

/-- THREE.MathUtils.lerp, exactly as in three.js. -/
def mathLerp (x y t : ℚ) : ℚ := (1 - t) * x + t * y

/-- One render-frame update of GrandTree's progress ref:
currentProgress = lerp(currentProgress, target, delta * 1.5). -/
def progressStep (value target delta : ℚ) : ℚ :=
  mathLerp value target (delta * 1.5)

/-- n repeated integrator steps with constant target and fixed delta. -/
def progressIterate (value target delta : ℚ) : ℕ → ℚ
  | 0 => value
  | n + 1 => progressStep (progressIterate value target delta n) target delta

/-- Closed form of the iterated integrator step (shared helper). -/
lemma progressIterate_eq (value target delta : ℚ) (n : ℕ) :
    progressIterate value target delta n
      = target - (target - value) * (1 - delta * 1.5) ^ n := by
  induction n with
  | zero => simp [progressIterate]
  | succ n ih =>
      simp only [progressIterate, progressStep, mathLerp, ih, pow_succ]
      ring

/-! ## Claim theorems C1 - C3 -/

/-- Claim C1, counterexample: on an empty camera frame the skin-pixel
count is 0, at or below the noise threshold 200, yet processFrame
delivers unleashed = false, hence isFormed = true and the tree's target
progress is 1, not 0 as the claim states. -/
theorem c1_counterexample :
    (skinPixels []).length ≤ 200 ∧
      processFrame [] = false ∧
      targetProgress (isFormedOf (processFrame [])) ≠ 0 := by
  refine ⟨by simp [skinPixels], rfl, ?_⟩
  norm_num [processFrame, skinPixels, isFormedOf, targetProgress]

/-- Claim C1 (amended): whenever the per-frame skin-pixel count is at or
below the noise threshold 200, processFrame delivers unleashed = false;
since App renders isFormed = !unleashed, the fail-safe state is the
FORMED tree and the target progress is 1 (likewise when camera access
is denied, unleashed keeps its initial value false, giving target 1). -/
theorem noHand_defaults_to_formed (frame : List Pixel)
    (hcount : (skinPixels frame).length ≤ 200) :
    processFrame frame = false ∧
      targetProgress (isFormedOf (processFrame frame)) = 1 ∧
      targetProgress (isFormedOf false) = 1 := by
  have h2 : ¬ 200 < (skinPixels frame).length := by omega
  refine ⟨?_, ?_, rfl⟩
  · simp [processFrame, h2]
  · simp [processFrame, h2, isFormedOf, targetProgress]

/-- Witness for the amended C1 theorem at the empty frame. -/
theorem noHand_defaults_to_formed_witness :
    processFrame [] = false ∧
      targetProgress (isFormedOf (processFrame [])) = 1 ∧
      targetProgress (isFormedOf false) = 1 :=
  noHand_defaults_to_formed [] (by simp [skinPixels])

/-- Claim C2, counterexample: the integrator is not frame-rate
independent. Splitting the same 0.2 s of elapsed time into one step of
dt = 0.2 gives value 0.3, while two steps of dt = 0.1 give 0.2775. -/
theorem c2_counterexample :
    (2 : ℚ) / 10 = 1 / 10 + 1 / 10 ∧
      progressIterate 0 1 (2 / 10) 1 ≠ progressIterate 0 1 (1 / 10) 2 := by
  constructor
  · norm_num
  · norm_num [progressIterate, progressStep, mathLerp]

/-- Claim C2 (amended): each render-frame update moves value toward the
target by the linear blend factor 1.5 * dt (not 1 - exp(-1.5 dt)), i.e.
value + (target - value) * 1.5 * dt, and after n equal steps the value
is target - (target - value) * (1 - 1.5 dt)^n; being linear in dt, the
integration is only approximately exponential and is not exactly
frame-rate independent. -/
theorem progress_step_linear_blend (value target delta : ℚ) (n : ℕ) :
    progressStep value target delta = value + (target - value) * (delta * 1.5)
      ∧ progressIterate value target delta n
          = target - (target - value) * (1 - delta * 1.5) ^ n := by
  constructor
  · simp only [progressStep, mathLerp]
    ring
  · exact progressIterate_eq value target delta n

/-- Claim C3, counterexample: for the fixed step dt = 1 (> 2/3), the
first integrator step from value 0 toward target 1 overshoots to 1.5,
exceeding the target, contrary to the no-overshoot claim. -/
theorem c3_counterexample :
    (0 : ℚ) < 1 ∧ 1 < progressIterate 0 1 1 1 := by
  norm_num [progressIterate, progressStep, mathLerp]

/-- Claim C3 (amended): for a constant target in {0,1} and a fixed dt
with 0 < 1.5 dt < 1 (dt < 2/3 s), repeated integrator steps from any
value in [0,1] distinct from the target strictly approach the target,
never cross it, and come within 0.01 of it after a bounded number of
steps. -/
theorem integrator_monotone_convergence (v0 target delta : ℚ)
    (htgt : target = 0 ∨ target = 1)
    (hv0 : 0 ≤ v0) (hv1 : v0 ≤ 1) (hne : v0 ≠ target)
    (hd0 : 0 < delta) (hd1 : delta * 1.5 < 1) :
    (∀ n, |target - progressIterate v0 target delta (n + 1)|
        < |target - progressIterate v0 target delta n|)
    ∧ (target = 1 → ∀ n,
        progressIterate v0 target delta n
            < progressIterate v0 target delta (n + 1)
          ∧ progressIterate v0 target delta n < 1)
    ∧ (target = 0 → ∀ n,
        progressIterate v0 target delta (n + 1)
            < progressIterate v0 target delta n
          ∧ 0 < progressIterate v0 target delta n)
    ∧ ∃ N, ∀ n, N ≤ n →
        |target - progressIterate v0 target delta n| ≤ 1 / 100 := by
  have hf0 : 0 < delta * 1.5 := by nlinarith
  have hq0 : 0 < 1 - delta * 1.5 := by linarith
  have hq1 : 1 - delta * 1.5 < 1 := by linarith
  have key : ∀ n, target - progressIterate v0 target delta n
      = (target - v0) * (1 - delta * 1.5) ^ n := by
    intro n
    rw [progressIterate_eq]
    ring
  have habs : ∀ n, |target - progressIterate v0 target delta n|
      = |target - v0| * (1 - delta * 1.5) ^ n := by
    intro n
    rw [key n, abs_mul, abs_pow, abs_of_pos hq0]
  have hdne : target - v0 ≠ 0 := sub_ne_zero.mpr fun h => hne h.symm
  have hdpos : 0 < |target - v0| := abs_pos.mpr hdne
  refine ⟨?_, ?_, ?_, ?_⟩
  · intro n
    rw [habs n, habs (n + 1)]
    exact mul_lt_mul_of_pos_left
      (pow_lt_pow_right_of_lt_one₀ hq0 hq1 (Nat.lt_succ_self n)) hdpos
  · intro h1 n
    subst h1
    have hv1s : v0 < 1 := lt_of_le_of_ne hv1 hne
    have e1 := key n
    have e2 := key (n + 1)
    rw [pow_succ] at e2
    have hpow : 0 < (1 - delta * 1.5) ^ n := pow_pos hq0 n
    constructor
    · nlinarith [mul_pos (mul_pos (sub_pos.mpr hv1s) hpow) hf0]
    · nlinarith [mul_pos (sub_pos.mpr hv1s) hpow]
  · intro h0 n
    subst h0
    have hv0s : 0 < v0 := lt_of_le_of_ne hv0 fun h => hne h.symm
    have e1 := key n
    have e2 := key (n + 1)
    rw [pow_succ] at e2
    have hpow : 0 < (1 - delta * 1.5) ^ n := pow_pos hq0 n
    constructor
    · nlinarith [mul_pos (mul_pos hv0s hpow) hf0]
    · nlinarith [mul_pos hv0s hpow]
  · have hdle : |target - v0| ≤ 1 := by
      rcases htgt with h | h <;> subst h <;>
        exact abs_le.mpr ⟨by linarith, by linarith⟩
    obtain ⟨N, hN⟩ :=
      exists_pow_lt_of_lt_one (show (0 : ℚ) < 1 / 100 by norm_num) hq1
    refine ⟨N, fun n hn => ?_⟩
    rw [habs n]
    have hmono : (1 - delta * 1.5) ^ n ≤ (1 - delta * 1.5) ^ N :=
      pow_le_pow_of_le_one hq0.le hq1.le hn
    have hb : |target - v0| * (1 - delta * 1.5) ^ n
        ≤ (1 - delta * 1.5) ^ n :=
      mul_le_of_le_one_left (pow_nonneg hq0.le n) hdle
    linarith

/-- Witness for the amended C3 theorem: v0 = 0, target = 1, dt = 1/3. -/
theorem integrator_monotone_convergence_witness :
    progressIterate 0 1 (1 / 3) 0 < progressIterate 0 1 (1 / 3) 1
      ∧ progressIterate 0 1 (1 / 3) 0 < 1 :=
  (integrator_monotone_convergence 0 1 (1 / 3) (Or.inr rfl) (by norm_num)
    (by norm_num) (by norm_num) (by norm_num) (by norm_num)).2.1 rfl 0

/-! ## Greeting service: geminiService.generateLuxuryGreetings -/

/-- Outcome of the one startup call to the external greeting provider:
no API key configured, a request/parse error (or timeout), an empty or
absent response text, or a successfully parsed list of strings. -/
inductive GreetOutcome where
  | noKey
  | requestError
  | emptyText
  | parsed (xs : List String)

/-- The literal default greeting list of the later service variant. -/
def defaults : List String :=
  ["GOLDEN ERA", "PURE LUXURY", "WINNING SEASON",
   "GRAND CHRISTMAS", "RICH & MERRY", "SUCCESS 2025"]

/-- generateLuxuryGreetings, later variant: every failure path returns
the shared literal defaults, and a parsed-but-empty list also falls
back to the defaults. -/
def generateLuxuryGreetings : GreetOutcome → List String
  | GreetOutcome.noKey => defaults
  | GreetOutcome.requestError => defaults
  | GreetOutcome.emptyText => defaults
  | GreetOutcome.parsed xs => if 0 < xs.length then xs else defaults

/-- generateLuxuryGreetings, earlier variant: each failure mode returns
its own literal list, and the empty-text path returns a single string. -/
def generateLuxuryGreetings_v0 : GreetOutcome → List String
  | GreetOutcome.noKey =>
      ["Merry Christmas", "Golden Holidays", "Luxury Awaits",
       "Grand Celebration", "Prosperity & Joy"]
  | GreetOutcome.requestError =>
      ["Merry Christmas", "Pure Luxury", "Golden Season", "Grand Joy"]
  | GreetOutcome.emptyText => ["Seasons Greetings"]
  | GreetOutcome.parsed xs => xs

/-- The failure modes named by the greeting-fallback property. -/
def failingOutcome (o : GreetOutcome) : Prop :=
  o = GreetOutcome.noKey ∨ o = GreetOutcome.requestError ∨
    o = GreetOutcome.emptyText

/-- Claim C5, counterexample: in the earlier service variant the
empty-response path returns a single-string list (fewer than 4), and it
differs from the no-API-key fallback list, so failing invocations do
not all return one fixed literal list of at least 4 strings. -/
theorem c5_counterexample :
    (generateLuxuryGreetings_v0 GreetOutcome.emptyText).length < 4 ∧
      generateLuxuryGreetings_v0 GreetOutcome.noKey
        ≠ generateLuxuryGreetings_v0 GreetOutcome.emptyText := by
  decide

/-- Claim C5 (amended): in the later service variant every failing
invocation (no API key, request error/timeout, empty/absent response
text) returns the same fixed literal list of 6 short strings, at least
4 strings as required; in the earlier variant the failure paths return
distinct literal lists and the empty-text path returns only one
string. -/
theorem generateLuxuryGreetings_fallback (o : GreetOutcome)
    (h : failingOutcome o) :
    generateLuxuryGreetings o = defaults ∧
      4 ≤ (generateLuxuryGreetings o).length := by
  rcases h with h | h | h <;> subst h <;> exact ⟨rfl, by decide⟩

/-- Witness for the amended C5 theorem at the no-API-key outcome. -/
theorem generateLuxuryGreetings_fallback_witness :
    generateLuxuryGreetings GreetOutcome.noKey = defaults ∧
      4 ≤ (generateLuxuryGreetings GreetOutcome.noKey).length :=
  generateLuxuryGreetings_fallback GreetOutcome.noKey (Or.inl rfl)

/-! ## Card greeting binding: GrandTree -/

/-- The greeting string bound by card i in GrandTree:
greetings[i % greetings.length] || "LUXURY". JavaScript's || falls back
both when the list is empty (index NaN, undefined element) and when the
selected greeting is the empty string (falsy). -/
def bindGreeting (gs : List String) (i : ℕ) : String :=
  if gs.isEmpty then "LUXURY"
  else if gs.getD (i % gs.length) "" = "" then "LUXURY"
  else gs.getD (i % gs.length) ""

/-- Claim C7, counterexample: for the nonempty greeting list containing
one empty string, the greeting at index 0 mod 1 is the empty string,
but the card binds the fallback literal instead, not greetings[i mod L]. -/
theorem c7_counterexample :
    ([""] : List String).get? (0 % ([""] : List String).length) = some "" ∧
      bindGreeting [""] 0 ≠ "" := by
  decide

/-- Claim C7 (amended): a card at index i binds greetings[i mod L]
whenever the list is nonempty and that selected greeting is itself a
non-empty string (JavaScript's || also replaces an empty-string
greeting by the fallback); when the greeting list is empty every card
binds the fixed literal fallback. In particular, for L = 5 and M = 16,
item 7 binds greetings[2]. -/
theorem bindGreeting_spec (gs : List String) (i : ℕ) :
    (gs = [] → bindGreeting gs i = "LUXURY")
    ∧ (gs ≠ [] → gs.getD (i % gs.length) "" ≠ "" →
        bindGreeting gs i = gs.getD (i % gs.length) "") := by
  constructor
  · intro h
    subst h
    rfl
  · intro hne hsel
    rcases gs with _ | ⟨a, as⟩
    · exact absurd rfl hne
    · simp only [bindGreeting, List.isEmpty_cons, Bool.false_eq_true,
        if_false, if_neg hsel]

/-- Witness for the amended C7 theorem: L = 5, item 7 binds the
greeting at index 7 mod 5 = 2. -/
theorem bindGreeting_spec_witness :
    bindGreeting ["A", "B", "C", "D", "E"] 7 = "C" :=
  (bindGreeting_spec ["A", "B", "C", "D", "E"] 7).2 (by decide) (by decide)

/-! ## Foliage shader: easing and point size -/

/-- The cubic ease-out of the vertex shader and item animator:
easeOutCubic(x) = 1 - (1 - x)^3. -/
def easeOutCubic (x : ℚ) : ℚ := 1 - (1 - x) ^ 3

/-- Vertex-shader point size, first TreeMaterials variant (the one with
the safety clamp): size = (6 aRandom + 5) * (1 / -mvz) * (0.5 + 0.6 t)
with t = easeOutCubic(uProgress), then clamped below at 2.0. -/
def pointSize_v1 (aRandom uProgress mvz : ℚ) : ℚ :=
  let t := easeOutCubic uProgress
  let s := (6 * aRandom + 5) * (1 / -mvz) * (0.5 + 0.6 * t)
  if s < 2 then 2 else s

/-- Vertex-shader point size, second TreeMaterials variant: size =
(6 aRandom + 4) * (1 / -mvz) * (0.5 + 0.5 t), with no clamp at all. -/
def pointSize_v2 (aRandom uProgress mvz : ℚ) : ℚ :=
  let t := easeOutCubic uProgress
  (6 * aRandom + 4) * (1 / -mvz) * (0.5 + 0.5 * t)

/-- Claim C8, counterexample: the second shader variant has no floor
clamp. At camera depth 1000 a particle with randomPhase 0 and progress
0 gets point size 1/500, already sub-pixel, and no positive floor can
bound the variant from below over valid inputs. -/
theorem c8_counterexample :
    pointSize_v2 0 0 (-1000) < 1 ∧
      ¬ ∃ c : ℚ, 0 < c ∧ ∀ aRandom uProgress mvz : ℚ,
          0 ≤ aRandom → aRandom ≤ 1 → 0 ≤ uProgress → uProgress ≤ 1 →
          mvz ≤ -1 → c ≤ pointSize_v2 aRandom uProgress mvz := by
  constructor
  · norm_num [pointSize_v2, easeOutCubic]
  · rintro ⟨c, hc, h⟩
    have hcpos : 0 < 4 / c := by positivity
    have hz : -(4 / c + 4) ≤ -1 := by linarith
    have happ := h 0 0 (-(4 / c + 4)) le_rfl zero_le_one le_rfl
      zero_le_one hz
    have hD : 0 < 4 / c + 4 := by linarith
    have heval : pointSize_v2 0 0 (-(4 / c + 4)) = 2 / (4 / c + 4) := by
      simp only [pointSize_v2, easeOutCubic]
      rw [neg_neg]
      ring
    rw [heval, le_div_iff₀ hD] at happ
    have hexp : c * (4 / c + 4) = 4 + 4 * c := by
      field_simp
    rw [hexp] at happ
    linarith

/-- Claim C8 (amended): in the shader variant that carries the safety
clamp, the computed point size is at least 2.0 for every randomPhase,
progress value and camera depth, so sub-pixel sizes never occur there;
the other shader variant computes an unclamped size that can fall below
any positive floor. -/
theorem pointSize_v1_floor (aRandom uProgress mvz : ℚ) :
    2 ≤ pointSize_v1 aRandom uProgress mvz := by
  simp only [pointSize_v1]
  split
  · exact le_rfl
  · next hlt => exact le_of_not_lt hlt

/-- Claim C9: the cubic ease-out shared by the particle shader and the
item animator satisfies eased(0) = 0 and eased(1) = 1 and is
monotonically non-decreasing on [0,1]. -/
theorem easeOutCubic_props :
    easeOutCubic 0 = 0 ∧ easeOutCubic 1 = 1 ∧
      ∀ x y : ℚ, 0 ≤ x → x ≤ y → y ≤ 1 →
        easeOutCubic x ≤ easeOutCubic y := by
  refine ⟨by norm_num [easeOutCubic], by norm_num [easeOutCubic], ?_⟩
  intro x y hx hxy hy
  have h3 : (1 - y) ^ 3 ≤ (1 - x) ^ 3 :=
    pow_le_pow_left₀ (by linarith) (by linarith) 3
  simp only [easeOutCubic]
  linarith

/-- Witness for the C9 theorem at the endpoints and at 1/4 vs 3/4. -/
theorem easeOutCubic_props_witness :
    easeOutCubic 0 = 0 ∧ easeOutCubic (1 / 4) ≤ easeOutCubic (3 / 4) :=
  ⟨easeOutCubic_props.1,
    easeOutCubic_props.2.2 (1 / 4) (3 / 4) (by norm_num) (by norm_num)
      (by norm_num)⟩

/-! ## Camera rig: App.tsx CameraRig -/

/-- The camera state touched by the rig: position components and the
look-at aim point that fixes the orientation. -/
structure CameraState where
  px : ℚ
  py : ℚ
  pz : ℚ
  lookX : ℚ
  lookY : ℚ
  lookZ : ℚ

/-- One CameraRig frame (App.tsx): lerp position.x toward delta.x * 6
and position.y toward 3 + delta.y * 4 with factor dt * 2, re-aim at
(0, 5, 0); position.z is never assigned. -/
def cameraRigStep (cam : CameraState) (dx dy dt : ℚ) : CameraState :=
  { px := mathLerp cam.px (dx * 6) (dt * 2)
    py := mathLerp cam.py (3 + dy * 4) (dt * 2)
    pz := cam.pz
    lookX := 0
    lookY := 5
    lookZ := 0 }

/-- One CameraRig frame, earlier variant: targets delta.x * 5 and
2 + delta.y * 3, look-at (0, 4, 0); position.z is never assigned. -/
def cameraRigStep_v0 (cam : CameraState) (dx dy dt : ℚ) : CameraState :=
  { px := mathLerp cam.px (dx * 5) (dt * 2)
    py := mathLerp cam.py (2 + dy * 3) (dt * 2)
    pz := cam.pz
    lookX := 0
    lookY := 4
    lookZ := 0 }

/-- A whole run of CameraRig frames, each with its own pointer offset
and dt. -/
def cameraRigRun (cam : CameraState) : List (ℚ × ℚ × ℚ) → CameraState
  | [] => cam
  | f :: fs => cameraRigRun (cameraRigStep cam f.1 f.2.1 f.2.2) fs

/-- Claim C10: every CameraRig frame update (in both variants) modifies
only the x and y position components and the orientation, which is
re-aimed at the fixed look-at point; the z position component is
unchanged by each step, and therefore keeps its initial value across
any sequence of frames. -/
theorem cameraRig_z_invariant (cam : CameraState) (dx dy dt : ℚ)
    (frames : List (ℚ × ℚ × ℚ)) :
    (cameraRigStep cam dx dy dt).pz = cam.pz
    ∧ (cameraRigStep cam dx dy dt).lookX = 0
    ∧ (cameraRigStep cam dx dy dt).lookY = 5
    ∧ (cameraRigStep cam dx dy dt).lookZ = 0
    ∧ (cameraRigStep_v0 cam dx dy dt).pz = cam.pz
    ∧ (cameraRigRun cam frames).pz = cam.pz := by
  refine ⟨rfl, rfl, rfl, rfl, rfl, ?_⟩
  induction frames generalizing cam with
  | nil => rfl
  | cons f fs ih =>
      rw [show cameraRigRun cam (f :: fs)
          = cameraRigRun (cameraRigStep cam f.1 f.2.1 f.2.2) fs from rfl,
        ih]
      rfl

/-! ## Discrete item animator and particle geometry (real-valued) -/

/-- A three-component vector, as used for positions and Euler angles. -/
structure Vec3 where
  x : ℝ
  y : ℝ
  z : ℝ

/-- One FloatingItem frame (later GrandTree variant): position is
lerpVectors(chaos, target, smoothT) with smoothT = 1 - (1 - t)^3, and
when the raw progress t exceeds 0.9 the y component additionally
receives the idle oscillation sin(elapsedTime * 2 + chaos.x) * 0.002. -/
noncomputable def floatingItemStep (chaos target : Vec3) (t time : ℝ) : Vec3 :=
  if 9 / 10 < t then
    ⟨chaos.x + (target.x - chaos.x) * (1 - (1 - t) ^ 3),
     chaos.y + (target.y - chaos.y) * (1 - (1 - t) ^ 3)
       + Real.sin (time * 2 + chaos.x) * 0.002,
     chaos.z + (target.z - chaos.z) * (1 - (1 - t) ^ 3)⟩
  else
    ⟨chaos.x + (target.x - chaos.x) * (1 - (1 - t) ^ 3),
     chaos.y + (target.y - chaos.y) * (1 - (1 - t) ^ 3),
     chaos.z + (target.z - chaos.z) * (1 - (1 - t) ^ 3)⟩

/-- FloatingItem rotation update for items with a finalRotation: each
Euler component is lerp(chaos.c * 0.1, finalRotation.c, smoothT). -/
noncomputable def floatingItemRot (chaos finalRot : Vec3) (t : ℝ) : Vec3 :=
  ⟨(1 - (1 - (1 - t) ^ 3)) * (chaos.x * 0.1) + (1 - (1 - t) ^ 3) * finalRot.x,
   (1 - (1 - (1 - t) ^ 3)) * (chaos.y * 0.1) + (1 - (1 - t) ^ 3) * finalRot.y,
   (1 - (1 - (1 - t) ^ 3)) * (chaos.z * 0.1) + (1 - (1 - t) ^ 3) * finalRot.z⟩

/-- Claim C4, counterexample: two invocations with the identical triple
(dispersedPosition, assembledPosition, eased) = (0, 0, eased 1) but
different global clock times produce different positions, because above
raw progress 0.9 the update reads the elapsed time. -/
theorem c4_counterexample :
    floatingItemStep ⟨0, 0, 0⟩ ⟨0, 0, 0⟩ 1 0
      ≠ floatingItemStep ⟨0, 0, 0⟩ ⟨0, 0, 0⟩ 1 (Real.pi / 4) := by
  have hc : (9 / 10 : ℝ) < 1 := by norm_num
  have h1 : (floatingItemStep ⟨0, 0, 0⟩ ⟨0, 0, 0⟩ 1 0).y = 0 := by
    simp only [floatingItemStep, if_pos hc]
    norm_num
  have h2 : (floatingItemStep ⟨0, 0, 0⟩ ⟨0, 0, 0⟩ 1 (Real.pi / 4)).y
      = 0.002 := by
    simp only [floatingItemStep, if_pos hc]
    rw [show Real.pi / 4 * 2 + (0 : ℝ) = Real.pi / 2 by ring,
      Real.sin_pi_div_two]
    norm_num
  intro h
  rw [h, h2] at h1
  norm_num at h1

/-- Claim C4 (amended): the per-item transform is a pure function of
(dispersedPosition, assembledPosition, eased) together with the global
elapsed time; whenever the raw progress is at most 0.9 the elapsed time
is not read, so the position is determined by the triple alone, and the
rotation is always determined by (chaos, finalRotation, eased). -/
theorem floatingItem_pure_below_threshold (chaos target finalRot : Vec3)
    (t time : ℝ) (h : t ≤ 9 / 10) :
    floatingItemStep chaos target t time
      = ⟨chaos.x + (target.x - chaos.x) * (1 - (1 - t) ^ 3),
         chaos.y + (target.y - chaos.y) * (1 - (1 - t) ^ 3),
         chaos.z + (target.z - chaos.z) * (1 - (1 - t) ^ 3)⟩
    ∧ floatingItemRot chaos finalRot t
      = ⟨(1 - (1 - (1 - t) ^ 3)) * (chaos.x * 0.1)
            + (1 - (1 - t) ^ 3) * finalRot.x,
         (1 - (1 - (1 - t) ^ 3)) * (chaos.y * 0.1)
            + (1 - (1 - t) ^ 3) * finalRot.y,
         (1 - (1 - (1 - t) ^ 3)) * (chaos.z * 0.1)
            + (1 - (1 - t) ^ 3) * finalRot.z⟩ := by
  constructor
  · simp only [floatingItemStep, if_neg (not_lt.mpr h)]
  · rfl

/-- Witness for the amended C4 theorem at t = 1/2 and elapsed time 7. -/
theorem floatingItem_pure_below_threshold_witness :
    floatingItemStep ⟨1, 2, 3⟩ ⟨4, 5, 6⟩ (1 / 2) 7
      = ⟨(1 : ℝ) + ((4 : ℝ) - 1) * (1 - (1 - 1 / 2) ^ 3),
         (2 : ℝ) + ((5 : ℝ) - 2) * (1 - (1 - 1 / 2) ^ 3),
         (3 : ℝ) + ((6 : ℝ) - 3) * (1 - (1 - 1 / 2) ^ 3)⟩
    ∧ floatingItemRot ⟨1, 2, 3⟩ ⟨0, 0, 0⟩ (1 / 2)
      = ⟨(1 - (1 - (1 - (1 / 2 : ℝ)) ^ 3)) * ((1 : ℝ) * 0.1)
            + (1 - (1 - (1 / 2 : ℝ)) ^ 3) * (0 : ℝ),
         (1 - (1 - (1 - (1 / 2 : ℝ)) ^ 3)) * ((2 : ℝ) * 0.1)
            + (1 - (1 - (1 / 2 : ℝ)) ^ 3) * (0 : ℝ),
         (1 - (1 - (1 - (1 / 2 : ℝ)) ^ 3)) * ((3 : ℝ) * 0.1)
            + (1 - (1 - (1 / 2 : ℝ)) ^ 3) * (0 : ℝ)⟩ :=
  floatingItem_pure_below_threshold ⟨1, 2, 3⟩ ⟨4, 5, 6⟩ ⟨0, 0, 0⟩ (1 / 2) 7
    (by norm_num)

/-- Assembled particle position of GrandTree's needle generation, with
the three uniform samples as inputs: y = u1 * TREE_HEIGHT, radiusAtY =
(1 - y / 18) * 7, angle = u2 * pi * 2, r = u3 * radiusAtY, cartesian
(r cos angle, y - 18/2 + 2, r sin angle). -/
noncomputable def particleAssembled (u1 u2 u3 : ℝ) : Vec3 :=
  let y := u1 * 18
  let radiusAtY := (1 - y / 18) * 7
  let angle := u2 * Real.pi * 2
  let r := u3 * radiusAtY
  ⟨r * Real.cos angle, y - 18 / 2 + 2, r * Real.sin angle⟩

/-- Claim C6: every generated assembled particle position lies inside
the tree cone: its radial distance from the axis, sqrt(x^2 + z^2), is
at most R * (1 - y / H) at its generation height y = u1 * 18, with H =
TREE_HEIGHT = 18 and R = TREE_RADIUS = 7 (exactly, over the reals). -/
theorem particle_containment (u1 u2 u3 : ℝ)
    (h1 : 0 ≤ u1) (h2 : u1 ≤ 1) (h3 : 0 ≤ u3) (h4 : u3 ≤ 1) :
    Real.sqrt ((particleAssembled u1 u2 u3).x ^ 2
        + (particleAssembled u1 u2 u3).z ^ 2)
      ≤ 7 * (1 - u1 * 18 / 18) := by
  have hrad : 0 ≤ (1 - u1 * 18 / 18) * 7 := by
    have hu : u1 * 18 / 18 = u1 := by ring
    rw [hu]
    linarith
  have hx : (particleAssembled u1 u2 u3).x
      = u3 * ((1 - u1 * 18 / 18) * 7) * Real.cos (u2 * Real.pi * 2) := rfl
  have hz : (particleAssembled u1 u2 u3).z
      = u3 * ((1 - u1 * 18 / 18) * 7) * Real.sin (u2 * Real.pi * 2) := rfl
  rw [hx, hz]
  have hpyth := Real.sin_sq_add_cos_sq (u2 * Real.pi * 2)
  have hsum : (u3 * ((1 - u1 * 18 / 18) * 7) * Real.cos (u2 * Real.pi * 2)) ^ 2
      + (u3 * ((1 - u1 * 18 / 18) * 7) * Real.sin (u2 * Real.pi * 2)) ^ 2
      = (u3 * ((1 - u1 * 18 / 18) * 7)) ^ 2 := by
    nlinarith [hpyth]
  rw [hsum, Real.sqrt_sq_eq_abs,
    abs_of_nonneg (mul_nonneg h3 hrad)]
  have hle : u3 * ((1 - u1 * 18 / 18) * 7) ≤ (1 - u1 * 18 / 18) * 7 :=
    mul_le_of_le_one_left hrad h4
  linarith

/-- Witness for the C6 theorem at u1 = u2 = u3 = 1/2. -/
theorem particle_containment_witness :
    Real.sqrt ((particleAssembled (1 / 2) (1 / 2) (1 / 2)).x ^ 2
        + (particleAssembled (1 / 2) (1 / 2) (1 / 2)).z ^ 2)
      ≤ 7 * (1 - (1 / 2) * 18 / 18) :=
  particle_containment (1 / 2) (1 / 2) (1 / 2) (by norm_num) (by norm_num)
    (by norm_num) (by norm_num)
